import Mathlib

/-!
Shallow embedding of the element-addressable session engine of
`src/src/mcp_autogui/mcp_autogui_main.py` (omniparser-autogui-mcp).

Modelling conventions:
* The closure state of `mcp_autogui_main` (the nonlocals `current_mouse_x`,
  `current_mouse_y`, `current_window`, `omniparser_thread`, `result_image`,
  `detail`, `is_finished`) is one record `St`.
* Window handles and encoded image bytes are opaque and modelled as `ℕ`.
* Python `int(...)` applied to a float quotient truncates toward zero; the
  arithmetic is embedded over `ℚ` with explicit truncation `pyInt` (for the
  magnitudes involved the float computation is exact enough that the float
  rounding never crosses an integer boundary, so the rational model is the
  intended semantics of the expression).
* Calls into `pyautogui` / `pyperclip` / `pygetwindow` are recorded as a
  trace of `Effect`s; the active window returned by `gw.getActiveWindow()`
  after an action is an explicit parameter.
* Python exceptions surface as `Except PyError`: subscripting `None`
  (`detail['compos']` with `detail = None`) raises `TypeError`, and the
  reference to the undefined name `autogui_click` in `omniparser_write`
  raises `NameError`.
-/

namespace McpAutogui

/-- `INPUT_IMAGE_SIZE = 960` from the source (preview resize target). -/
def INPUT_IMAGE_SIZE : ℕ := 960

/-- `PADDING_SIZE = 0` from the source (margin compensation constant). -/
def PADDING_SIZE : ℕ := 0

/-- Python `int(x)` on a real value: truncation toward zero. -/
def pyInt (q : ℚ) : ℤ := if 0 ≤ q then ⌊q⌋ else ⌈q⌉

/-- A detected element's bounding box, the `compos['position']` dict:
keys `row_min`, `row_max`, `column_min`, `column_max`. -/
structure Position where
  row_min : ℕ
  row_max : ℕ
  column_min : ℕ
  column_max : ℕ
deriving DecidableEq

/-- One detected element. `id`, `position` are the keys read by the action
tools (`compos['id']`, `compos['position']`); `type` and `content` are the
keys read by the summary loop (`content['type']`, `content['content']`). -/
structure Compos where
  id : ℤ
  position : Position
  type : String
  content : String
deriving DecidableEq

/-- The analysis result `detail`. Modelled from the spec: `parse_raw` lives in
the patched OmniParser collaborator, which is not under `src/`; the spec pins
its result as an ordered element sequence plus the analyzed image's shape.
`img_shape_rows` is `detail['img_shape'][0]` and `img_shape_cols` is
`detail['img_shape'][1]`. -/
structure Detail where
  compos : List Compos
  img_shape_rows : ℕ
  img_shape_cols : ℕ
deriving DecidableEq

/-- Python exceptions that the embedded code can raise. -/
inductive PyError where
  | typeError : PyError
  | nameError : PyError
deriving DecidableEq

/-- One call into the excluded input-simulation / clipboard / window
collaborators, in program order. -/
inductive Effect where
  | click (x y : ℤ) (button : String) (clicks : ℤ) : Effect
  | moveTo (x y : ℤ) : Effect
  | dragTo (x y : ℤ) (button : String) : Effect
  | keyDown (k : String) : Effect
  | keyUp (k : String) : Effect
  | scroll (n : ℤ) : Effect
  | write (s : String) : Effect
  | clipboardCopy (s : String) : Effect
  | hotkey (ks : List String) : Effect
  | activateWindow (w : ℕ) : Effect
deriving DecidableEq

/-- Press/release events; `pyautogui.hotkey` presses its keys in order and
releases them in reverse order. -/
inductive KeyEvent where
  | down (k : String) : KeyEvent
  | up (k : String) : KeyEvent
deriving DecidableEq

/-- The press/release sequence performed by `pyautogui.hotkey(ks...)`. -/
def hotkeyEvents (ks : List String) : List KeyEvent :=
  ks.map KeyEvent.down ++ ks.reverse.map KeyEvent.up

/-- The closure state of `mcp_autogui_main`: every `nonlocal` shared by the
tool handlers. `result_image` holds the (opaque) encoded preview bytes. -/
structure St where
  current_mouse_x : ℤ
  current_mouse_y : ℤ
  current_window : ℕ
  omniparser_thread : Option Unit
  result_image : Option ℕ
  detail : Option Detail
  is_finished : Bool
deriving DecidableEq

/-- The x coordinate computed inline by `omniparser_click` /
`omniparser_drags` / `omniparser_mouse_move` (the identical expression occurs
in all three):
`int((column_min + column_max) * (screen_width + PADDING_SIZE * 2)
     / detail['img_shape'][1] / 2) - PADDING_SIZE`. -/
def composPointX (c : Compos) (screen_width : ℕ) (d : Detail) : ℤ :=
  pyInt (((c.position.column_min : ℚ) + (c.position.column_max : ℚ)) *
      ((screen_width : ℚ) + (PADDING_SIZE : ℚ) * 2) / (d.img_shape_cols : ℚ) / 2)
    - (PADDING_SIZE : ℤ)

/-- The y coordinate computed inline by the same three tools:
`int((row_min + row_max) * (screen_height + PADDING_SIZE * 2)
     / detail['img_shape'][0] / 2) - PADDING_SIZE`. -/
def composPointY (c : Compos) (screen_height : ℕ) (d : Detail) : ℤ :=
  pyInt (((c.position.row_min : ℚ) + (c.position.row_max : ℚ)) *
      ((screen_height : ℚ) + (PADDING_SIZE : ℚ) * 2) / (d.img_shape_rows : ℚ) / 2)
    - (PADDING_SIZE : ℤ)

/-- The `for compos in detail['compos']: if compos['id'] == id:` loop of
`omniparser_click` / `omniparser_mouse_move`: first match wins (the loop
returns inside the body). -/
def findCompos (id : ℤ) : List Compos → Option Compos
  | [] => none
  | c :: rest => if c.id = id then some c else findCompos id rest

/-- `omniparser_click(id, button, clicks)`. `newWindow` is the value
`gw.getActiveWindow()` returns after the click. With `detail = None`,
`detail['compos']` raises `TypeError`. -/
def omniparser_click (id : ℤ) (button : String) (clicks : ℤ)
    (screen_width screen_height : ℕ) (newWindow : ℕ) (s : St) :
    Except PyError (Bool × St × List Effect) :=
  match s.detail with
  | none => .error .typeError
  | some d =>
    match findCompos id d.compos with
    | some c =>
      let x := composPointX c screen_width d
      let y := composPointY c screen_height d
      .ok (true,
        { s with current_mouse_x := x, current_mouse_y := y,
                 current_window := newWindow },
        [Effect.click x y button clicks])
    | none => .ok (false, s, [])

/-- `omniparser_mouse_move(id)`. -/
def omniparser_mouse_move (id : ℤ) (screen_width screen_height : ℕ)
    (newWindow : ℕ) (s : St) : Except PyError (Bool × St × List Effect) :=
  match s.detail with
  | none => .error .typeError
  | some d =>
    match findCompos id d.compos with
    | some c =>
      let x := composPointX c screen_width d
      let y := composPointY c screen_height d
      .ok (true,
        { s with current_mouse_x := x, current_mouse_y := y,
                 current_window := newWindow },
        [Effect.moveTo x y])
    | none => .ok (false, s, [])

/-- The single scan loop of `omniparser_drags`: starting from the sentinel
`from_x = -1`, `to_x = -1`, every matching element overwrites the respective
pair (the loop has no `break`, so the last match wins). The `y` slots are
uninitialized in the source until the first match; they are seeded with `0`
here, which is only ever read when the paired `x` slot is not `-1`. -/
def dragStep (from_id to_id : ℤ) (screen_width screen_height : ℕ) (d : Detail)
    (acc : (ℤ × ℤ) × (ℤ × ℤ)) (c : Compos) : (ℤ × ℤ) × (ℤ × ℤ) :=
  let acc1 := if c.id = from_id then
      ((composPointX c screen_width d, composPointY c screen_height d), acc.2)
    else acc
  if c.id = to_id then
    (acc1.1, (composPointX c screen_width d, composPointY c screen_height d))
  else acc1

/-- The whole scan, starting from the sentinels. -/
def dragScan (from_id to_id : ℤ) (screen_width screen_height : ℕ)
    (d : Detail) : (ℤ × ℤ) × (ℤ × ℤ) :=
  d.compos.foldl (dragStep from_id to_id screen_width screen_height d)
    ((-1, 0), (-1, 0))

/-- `omniparser_drags(from_id, to_id, button, key)`. If either slot still has
`x = -1` after the scan, returns `False` with no physical effect; otherwise a
nonempty `key` is held down around the move+drag. -/
def omniparser_drags (from_id to_id : ℤ) (button key : String)
    (screen_width screen_height : ℕ) (newWindow : ℕ) (s : St) :
    Except PyError (Bool × St × List Effect) :=
  match s.detail with
  | none => .error .typeError
  | some d =>
    let p := dragScan from_id to_id screen_width screen_height d
    if p.1.1 = -1 ∨ p.2.1 = -1 then .ok (false, s, [])
    else
      .ok (true,
        { s with current_mouse_x := p.2.1, current_mouse_y := p.2.2,
                 current_window := newWindow },
        (if key ≠ "" then [Effect.keyDown key] else []) ++
          [Effect.moveTo p.1.1 p.1.2, Effect.dragTo p.2.1 p.2.2 button] ++
          (if key ≠ "" then [Effect.keyUp key] else []))

/-- Python `str.isascii()`: every code point below 128 (true on `""`). -/
def pyIsAscii (s : String) : Bool :=
  s.toList.all fun c => c.toNat < 128

/-- `omniparser_write(content, id)`. The branch `if id >= 0:` calls
`autogui_click(id)`, a name defined nowhere in the repository, so that branch
raises `NameError` before anything else happens. The `else` branch reactivates
the stored window and restores the stored pointer position; delivery is then
selected by `content.isascii()`: direct `pyautogui.write` for ASCII, clipboard
copy plus ctrl+v for non-ASCII. -/
def omniparser_write (content : String) (id : ℤ) (s : St) :
    Except PyError (St × List Effect) :=
  if 0 ≤ id then .error .nameError
  else
    let pre := [Effect.activateWindow s.current_window,
                Effect.moveTo s.current_mouse_x s.current_mouse_y]
    if pyIsAscii content then .ok (s, pre ++ [Effect.write content])
    else .ok (s, pre ++ [Effect.clipboardCopy content,
                         Effect.hotkey ["ctrl", "v"]])

/-- `omniparser_input_key(key1, key2, key3)`: after reactivating the stored
window and pointer, calls `hotkey` with three keys only when both `key2` and
`key3` are nonempty, with two keys when only `key2` is nonempty, and with
`key1` alone otherwise (so a nonempty `key3` with empty `key2` falls through
to the one-key branch). -/
def omniparser_input_key (key1 key2 key3 : String) (s : St) :
    St × List Effect :=
  let pre := [Effect.activateWindow s.current_window,
              Effect.moveTo s.current_mouse_x s.current_mouse_y]
  if key2 ≠ "" ∧ key3 ≠ "" then (s, pre ++ [Effect.hotkey [key1, key2, key3]])
  else if key2 ≠ "" then (s, pre ++ [Effect.hotkey [key1, key2]])
  else (s, pre ++ [Effect.hotkey [key1]])

/-- One line of the textual summary built by the analysis thread:
`f'ID: {loop}, {type}: {content}\n'`. -/
def composLine (i : ℕ) (c : Compos) : String :=
  "ID: " ++ toString i ++ ", " ++ c.type ++ ": " ++ c.content ++ "\n"

/-- The summary lines, one per element in detection order. Modelled from the
spec: the loop `for loop, content in enumerate(detail)` iterates the analysis
result's elements (the result's concrete container type lives in the patched
OmniParser collaborator outside `src/`; the spec fixes the summary as one line
per element, in detection order, with the enumeration index as the id). -/
def detailSummaryLines (d : Detail) : List String :=
  d.compos.enum.map fun p => composLine p.1 p.2

/-- The flattened summary text `detail_text` accumulated by the thread. -/
def detailSummary (d : Detail) : String :=
  String.join (detailSummaryLines d)

/-- The ids printed in the summary, in print order. -/
def summaryIds (d : Detail) : List ℕ :=
  d.compos.enum.map Prod.fst

/-- The pass-start section of `omniparser_details_on_screen` (lines 91-96):
when `omniparser_thread is None`, it clears `result_image`, `detail` and
`is_finished` and starts one background thread; otherwise it is a no-op and
the caller joins the running pass. The boolean reports whether a new
background pass was started. -/
def startAnalysis (s : St) : St × Bool :=
  if s.omniparser_thread.isSome then (s, false)
  else ({ s with result_image := none, detail := none, is_finished := false,
                 omniparser_thread := some () }, true)

/-- The tuple assignment at line 72: the nonlocal `detail` is published the
moment `omniparser.parse_raw` returns, before the preview exists. -/
def threadAssignDetail (d : Detail) (s : St) : St :=
  { s with detail := some d }

/-- Lines 83-84: the encoded preview bytes are stored into the nonlocal
`result_image` (the b64 decode / open / resize / save pipeline collapsed to
one opaque publication step). -/
def threadAssignImage (img : ℕ) (s : St) : St :=
  { s with result_image := some img }

/-- Line 90: the final assignment `is_finished = True`. -/
def threadFinish (s : St) : St :=
  { s with is_finished := true }

/-- How far the body of `omniparser_thread_func` runs before dying, at the
granularity of its nonlocal assignments. The body has no exception handler,
so a raise kills the thread wherever it happens: in the screenshot or in
`parse_raw` (before line 72 assigns anything), in the preview
decode/resize/save (after `detail` is published, before `result_image`), or
in the summary loop (after `result_image`, before `is_finished`). -/
inductive ThreadRun where
  | failBeforeDetail : ThreadRun
  | failAfterDetail (d : Detail) : ThreadRun
  | failAfterImage (d : Detail) (img : ℕ) : ThreadRun
  | success (d : Detail) (img : ℕ) : ThreadRun
deriving DecidableEq

/-- Whether the run died before completing the body. -/
def ThreadRun.isFailure : ThreadRun → Bool
  | .success _ _ => false
  | _ => true

/-- The body of `omniparser_thread_func`, stepwise in the source's assignment
order: `detail` (line 72), then `result_image` (lines 83-84), then the
summary into the *starting invocation's* local `detail_text` (lines 86-88 —
the thread's `nonlocal detail_text` binds to the enclosing
`omniparser_details_on_screen` call that created the thread), then
`is_finished` (line 90). A failure leaves every assignment already made in
place and the later ones never made. Returns the updated shared state and
the starter's local text. The post-state of `failAfterDetail` is also
exactly the registry's mid-pass window of every successful pass, between
lines 72 and 83. -/
def omniparser_thread_func (r : ThreadRun) (s : St)
    (starter_detail_text : String) : St × String :=
  match r with
  | .failBeforeDetail => (s, starter_detail_text)
  | .failAfterDetail d => (threadAssignDetail d s, starter_detail_text)
  | .failAfterImage d img =>
    (threadAssignImage img (threadAssignDetail d s), starter_detail_text)
  | .success d img =>
    (threadFinish (threadAssignImage img (threadAssignDetail d s)),
     detailSummary d)

/-- The return section of `omniparser_details_on_screen` (lines 101-103),
reached once `is_finished` holds: sets `omniparser_thread = None` and returns
the *invocation-local* `detail_text` together with the shared preview bytes. -/
def detailsCollect (s : St) (local_detail_text : String) :
    St × (String × Option ℕ) :=
  ({ s with omniparser_thread := none }, (local_detail_text, s.result_image))

/-- Two concurrent `omniparser_details_on_screen` invocations over one
background pass, in the schedule: caller A enters (starts the pass, its local
`detail_text = ''`), caller B enters while the pass runs (joins, its own local
`detail_text = ''`), the thread completes writing A's local, then both collect.
Returns (A's result, B's result). -/
def twoCallerRun (run : ThreadRun) (s₀ : St) :
    (String × Option ℕ) × (String × Option ℕ) :=
  let s₁ := (startAnalysis s₀).1
  let s₂ := (startAnalysis s₁).1
  let r := omniparser_thread_func run s₂ ""
  let tb := ""
  let ca := detailsCollect r.1 r.2
  let cb := detailsCollect ca.1 tb
  (ca.2, cb.2)

/-- The spec's Coordinate Mapper formula taken at its word, for one axis:
`round((lo + hi) * (screen + 2P) / (2 * image_dim)) − P` with the margin `P`
wired to the configured `PADDING_SIZE`. Written from the spec for comparison
with the source's `composPointX`/`composPointY`. -/
def specRoundCoord (lo hi screen dim : ℕ) : ℤ :=
  round (((lo : ℚ) + (hi : ℚ)) * ((screen : ℚ) + 2 * (PADDING_SIZE : ℚ)) /
      (2 * (dim : ℚ)))
    - (PADDING_SIZE : ℤ)

/-- The same formula with Python's actual truncation in place of `round`:
`int((lo + hi) * (screen + 2P) / (2 * image_dim)) − P`. -/
def specTruncCoord (lo hi screen dim : ℕ) : ℤ :=
  pyInt (((lo : ℚ) + (hi : ℚ)) * ((screen : ℚ) + 2 * (PADDING_SIZE : ℚ)) /
      (2 * (dim : ℚ)))
    - (PADDING_SIZE : ℤ)

/-- Ids are detection-order positions. Modelled from the spec: "`id` is the
element's position in detection order". -/
def DetectionOrderIds (d : Detail) : Prop :=
  ∀ j : ℕ, ∀ h : j < d.compos.length, (d.compos.get ⟨j, h⟩).id = (j : ℤ)

/-! ### Concrete fixtures -/

/-- The spec's scenario element: bounds `row 10..30`, `col 100..200`. -/
def cScen : Compos :=
  { id := 0,
    position := { row_min := 10, row_max := 30, column_min := 100, column_max := 200 },
    type := "icon", content := "a button" }

/-- The spec's scenario result: one element, analyzed image `960 × 960`. -/
def dScen : Detail := { compos := [cScen], img_shape_rows := 960, img_shape_cols := 960 }

/-- A state holding the scenario result as the published registry content. -/
def stScen : St :=
  { current_mouse_x := 5, current_mouse_y := 6, current_window := 0,
    omniparser_thread := none, result_image := some 9, detail := some dScen,
    is_finished := true }

/-- The startup state: nothing analyzed yet (`detail = None`). -/
def stIdle : St :=
  { current_mouse_x := 5, current_mouse_y := 6, current_window := 0,
    omniparser_thread := none, result_image := none, detail := none,
    is_finished := false }

/-- A state with a background pass currently running. -/
def stRun : St :=
  { current_mouse_x := 5, current_mouse_y := 6, current_window := 0,
    omniparser_thread := some (), result_image := none, detail := none,
    is_finished := false }

/-- A two-element result with detection-order ids, for round-trip checks. -/
def dTwo : Detail :=
  { compos :=
      [{ id := 0,
         position := { row_min := 0, row_max := 20, column_min := 0, column_max := 40 },
         type := "text", content := "File" },
       { id := 1,
         position := { row_min := 10, row_max := 30, column_min := 100, column_max := 200 },
         type := "icon", content := "a button" }],
    img_shape_rows := 960, img_shape_cols := 960 }

/-- A state holding the two-element result `dTwo`. -/
def stTwo : St :=
  { current_mouse_x := 5, current_mouse_y := 6, current_window := 0,
    omniparser_thread := none, result_image := some 9, detail := some dTwo,
    is_finished := true }

/-- A single detected element with a nonempty caption. -/
def cOne : Compos :=
  { id := 0,
    position := { row_min := 0, row_max := 10, column_min := 0, column_max := 10 },
    type := "text", content := "hello" }

/-- A one-element result whose summary line is nonempty. -/
def dOne : Detail :=
  { compos := [cOne], img_shape_rows := 960, img_shape_cols := 960 }

/-! ### Helper lemmas -/

/-- Scenario x value: `(100+200) * 1920 / 960 / 2 = 300`, truncated to `300`. -/
lemma composPointX_scen : composPointX cScen 1920 dScen = 300 := by
  norm_num [composPointX, pyInt, cScen, dScen, PADDING_SIZE]

/-- Scenario y value: `(10+30) * 1080 / 960 / 2 = 22.5`, truncated to `22`. -/
lemma composPointY_scen : composPointY cScen 1080 dScen = 22 := by
  norm_num [composPointY, pyInt, cScen, dScen, PADDING_SIZE]

/-- The inline x expression equals the spec-shaped formula with truncation:
dividing by `img_cols` and then by `2` is dividing by `2 * img_cols`, and
`W + P * 2 = W + 2 * P`. -/
lemma composPointX_eq_specTrunc (c : Compos) (W : ℕ) (d : Detail) :
    composPointX c W d =
      specTruncCoord c.position.column_min c.position.column_max W d.img_shape_cols := by
  unfold composPointX specTruncCoord
  congr 2
  ring

/-- The inline y expression equals the spec-shaped formula with truncation. -/
lemma composPointY_eq_specTrunc (c : Compos) (H : ℕ) (d : Detail) :
    composPointY c H d =
      specTruncCoord c.position.row_min c.position.row_max H d.img_shape_rows := by
  unfold composPointY specTruncCoord
  congr 2
  ring

/-- With the configured `PADDING_SIZE = 0` the mapped x is never negative. -/
lemma composPointX_nonneg (c : Compos) (W : ℕ) (d : Detail) :
    0 ≤ composPointX c W d := by
  unfold composPointX pyInt
  have hq : (0 : ℚ) ≤ ((c.position.column_min : ℚ) + (c.position.column_max : ℚ)) *
      ((W : ℚ) + (PADDING_SIZE : ℚ) * 2) / (d.img_shape_cols : ℚ) / 2 := by
    positivity
  rw [if_pos hq]
  simp [PADDING_SIZE, Int.le_floor]
  exact_mod_cast hq

/-- With the configured `PADDING_SIZE = 0` the mapped y is never negative. -/
lemma composPointY_nonneg (c : Compos) (H : ℕ) (d : Detail) :
    0 ≤ composPointY c H d := by
  unfold composPointY pyInt
  have hq : (0 : ℚ) ≤ ((c.position.row_min : ℚ) + (c.position.row_max : ℚ)) *
      ((H : ℚ) + (PADDING_SIZE : ℚ) * 2) / (d.img_shape_rows : ℚ) / 2 := by
    positivity
  rw [if_pos hq]
  simp [PADDING_SIZE, Int.le_floor]
  exact_mod_cast hq

/-- A successful first-match lookup found a member carrying the id. -/
lemma findCompos_eq_some (id : ℤ) (l : List Compos) (c : Compos)
    (h : findCompos id l = some c) : c ∈ l ∧ c.id = id := by
  induction l with
  | nil => simp [findCompos] at h
  | cons x xs ih =>
    by_cases hx : x.id = id
    · simp [findCompos, hx] at h
      subst h
      exact ⟨List.mem_cons_self x xs, hx⟩
    · simp [findCompos, hx] at h
      rcases ih h with ⟨hmem, hid⟩
      exact ⟨List.mem_cons_of_mem x hmem, hid⟩

/-- A failed lookup means no member carries the id. -/
lemma findCompos_eq_none (id : ℤ) (l : List Compos)
    (h : findCompos id l = none) : ∀ c ∈ l, c.id ≠ id := by
  induction l with
  | nil => simp
  | cons x xs ih =>
    by_cases hx : x.id = id
    · simp [findCompos, hx] at h
    · simp [findCompos, hx] at h
      intro c hc
      rcases List.mem_cons.mp hc with rfl | hmem
      · exact hx
      · exact ih h c hmem

/-- If no element carries `from_id`, the scan never writes the first slot. -/
lemma dragScan_fst_of_no_match (from_id to_id : ℤ) (W H : ℕ) (d : Detail)
    (l : List Compos) (acc : (ℤ × ℤ) × (ℤ × ℤ))
    (h : ∀ c ∈ l, c.id ≠ from_id) :
    (l.foldl (dragStep from_id to_id W H d) acc).1 = acc.1 := by
  induction l generalizing acc with
  | nil => rfl
  | cons x xs ih =>
    have hx : x.id ≠ from_id := h x (List.mem_cons_self x xs)
    have hxs : ∀ c ∈ xs, c.id ≠ from_id := fun c hc => h c (List.mem_cons_of_mem x hc)
    simp only [List.foldl_cons]
    rw [ih _ hxs]
    unfold dragStep
    simp only [if_neg hx]
    by_cases ht : x.id = to_id <;> simp [ht]

/-- If no element carries `to_id`, the scan never writes the second slot. -/
lemma dragScan_snd_of_no_match (from_id to_id : ℤ) (W H : ℕ) (d : Detail)
    (l : List Compos) (acc : (ℤ × ℤ) × (ℤ × ℤ))
    (h : ∀ c ∈ l, c.id ≠ to_id) :
    (l.foldl (dragStep from_id to_id W H d) acc).2 = acc.2 := by
  induction l generalizing acc with
  | nil => rfl
  | cons x xs ih =>
    have hx : x.id ≠ to_id := h x (List.mem_cons_self x xs)
    have hxs : ∀ c ∈ xs, c.id ≠ to_id := fun c hc => h c (List.mem_cons_of_mem x hc)
    simp only [List.foldl_cons]
    rw [ih _ hxs]
    unfold dragStep
    simp only [if_neg hx]
    by_cases hf : x.id = from_id <;> simp [hf]

/-- With `from_id = to_id = id` and `c` the unique carrier of `id`, the scan
over any suffix either keeps the accumulator (no match) or lands on `c`'s
point in both slots. -/
lemma dragScan_foldl_uniq (id : ℤ) (W H : ℕ) (d : Detail) (c : Compos)
    (l : List Compos) (hu : ∀ x ∈ l, x.id = id → x = c) :
    ∀ acc, l.foldl (dragStep id id W H d) acc =
      if l.any (fun x => x.id = id) then
        ((composPointX c W d, composPointY c H d),
         (composPointX c W d, composPointY c H d))
      else acc := by
  induction l with
  | nil => intro acc; rfl
  | cons x xs ih =>
    intro acc
    have hxs : ∀ y ∈ xs, y.id = id → y = c := fun y hy => hu y (List.mem_cons_of_mem x hy)
    by_cases hx : x.id = id
    · have hxc : x = c := hu x (List.mem_cons_self x xs) hx
      subst hxc
      simp only [List.foldl_cons]
      rw [ih hxs]
      rcases Bool.eq_false_or_eq_true (xs.any fun y => y.id = id) with h | h <;>
        · simp only [h]
          simp [List.any_cons, hx, dragStep]
    · simp only [List.foldl_cons]
      have hstep : dragStep id id W H d acc x = acc := by
        simp [dragStep, hx]
      rw [hstep, ih hxs]
      simp only [List.any_cons]
      simp [hx]

/-- The scan at a uniquely carried id (used as both endpoints). -/
lemma dragScan_same_uniq (id : ℤ) (W H : ℕ) (d : Detail) (c : Compos)
    (hmem : c ∈ d.compos) (hid : c.id = id)
    (hu : ∀ x ∈ d.compos, x.id = id → x = c) :
    dragScan id id W H d =
      ((composPointX c W d, composPointY c H d),
       (composPointX c W d, composPointY c H d)) := by
  unfold dragScan
  rw [dragScan_foldl_uniq id W H d c d.compos hu]
  have hany : d.compos.any (fun x => x.id = id) = true := by
    exact List.any_eq_true.mpr ⟨c, hmem, by simp [hid]⟩
  simp [hany]

/-- Detection-order ids resolve each printed index to the element at that
index: the first-match scan reaches position `j` without an earlier hit. -/
lemma findCompos_of_base (l : List Compos) (base : ℤ)
    (hb : ∀ k : ℕ, ∀ hk : k < l.length, (l.get ⟨k, hk⟩).id = base + k) :
    ∀ j : ℕ, ∀ hj : j < l.length, findCompos (base + j) l = some (l.get ⟨j, hj⟩) := by
  induction l generalizing base with
  | nil => intro j hj; exact absurd hj (by simp)
  | cons x xs ih =>
    intro j hj
    have hx : x.id = base := by
      have := hb 0 (by simp)
      simpa using this
    match j with
    | 0 => simp [findCompos, hx]
    | k + 1 =>
      have hne : x.id ≠ base + (k + 1 : ℕ) := by
        rw [hx]
        intro hcontra
        omega
      have hb' : ∀ m : ℕ, ∀ hm : m < xs.length, (xs.get ⟨m, hm⟩).id = (base + 1) + m := by
        intro m hm
        have := hb (m + 1) (by simpa using Nat.succ_lt_succ hm)
        simp only [List.get_cons_succ] at this
        rw [this]
        push_cast
        ring
      have hk : k < xs.length := by simpa using Nat.lt_of_succ_lt_succ hj
      have := ih (base + 1) hb' k hk
      have harg : base + ((k : ℤ) + 1) = (base + 1) + k := by ring
      simp only [findCompos, hne, if_neg hne, List.get_cons_succ]
      rw [show base + ((k + 1 : ℕ) : ℤ) = (base + 1) + k by push_cast; ring]
      exact this

/-- `dTwo` carries detection-order ids. -/
lemma dTwo_ids : DetectionOrderIds dTwo := by
  intro j h
  simp only [dTwo, List.length_cons, List.length_nil] at h
  interval_cases j <;> rfl

/-! ### Claim theorems -/

/-- Claim C1 counterexample: at the spec's own scenario (bounds row 10..30 and
col 100..200 in a 960×960 image, screen 1920×1080, margin 0) the code maps the
row midpoint 22.5 to `22` — Python `int()` truncation — while the claimed
`round` convention gives `23`, so the click lands at `(300, 22)`, not at the
round-convention point. -/
theorem mapping_round_counterexample :
    composPointY cScen 1080 dScen = 22 ∧
    specRoundCoord 10 30 1080 960 = 23 ∧
    (22 : ℤ) ≠ 23 ∧
    omniparser_click 0 "left" 1 1920 1080 4 stScen =
      .ok (true,
        { stScen with current_mouse_x := 300, current_mouse_y := 22,
                      current_window := 4 },
        [Effect.click 300 22 "left" 1]) := by
  refine ⟨composPointY_scen, ?_, by decide, ?_⟩
  · norm_num [specRoundCoord, PADDING_SIZE, round_eq]
  · have hq : omniparser_click 0 "left" 1 1920 1080 4 stScen =
        .ok (true,
          { stScen with current_mouse_x := composPointX cScen 1920 dScen,
                        current_mouse_y := composPointY cScen 1080 dScen,
                        current_window := 4 },
          [Effect.click (composPointX cScen 1920 dScen)
             (composPointY cScen 1080 dScen) "left" 1]) := rfl
    rw [hq, composPointX_scen, composPointY_scen]

/-- Claim C1 (amended): for an element id that resolves (uniquely) in the
published result, click, move and drag all act at the single point
`x = int((col_min + col_max) * (W + 2P) / (2 * image_columns)) − P`,
`y = int((row_min + row_max) * (H + 2P) / (2 * image_rows)) − P` — the
midpoint mapping with Python truncation toward zero, not `round`. -/
theorem action_point_trunc_mapping (s : St) (d : Detail) (c : Compos)
    (id : ℤ) (hd : s.detail = some d) (hc : findCompos id d.compos = some c)
    (hu : ∀ x ∈ d.compos, x.id = id → x = c)
    (b : String) (n : ℤ) (W H w : ℕ) :
    composPointX c W d =
      specTruncCoord c.position.column_min c.position.column_max W d.img_shape_cols ∧
    composPointY c H d =
      specTruncCoord c.position.row_min c.position.row_max H d.img_shape_rows ∧
    omniparser_click id b n W H w s =
      .ok (true,
        { s with current_mouse_x := composPointX c W d,
                 current_mouse_y := composPointY c H d,
                 current_window := w },
        [Effect.click (composPointX c W d) (composPointY c H d) b n]) ∧
    omniparser_mouse_move id W H w s =
      .ok (true,
        { s with current_mouse_x := composPointX c W d,
                 current_mouse_y := composPointY c H d,
                 current_window := w },
        [Effect.moveTo (composPointX c W d) (composPointY c H d)]) ∧
    omniparser_drags id id b "" W H w s =
      .ok (true,
        { s with current_mouse_x := composPointX c W d,
                 current_mouse_y := composPointY c H d,
                 current_window := w },
        [Effect.moveTo (composPointX c W d) (composPointY c H d),
         Effect.dragTo (composPointX c W d) (composPointY c H d) b]) := by
  obtain ⟨hmem, hcid⟩ := findCompos_eq_some id d.compos c hc
  refine ⟨composPointX_eq_specTrunc c W d, composPointY_eq_specTrunc c H d,
    ?_, ?_, ?_⟩
  · simp [omniparser_click, hd, hc]
  · simp [omniparser_mouse_move, hd, hc]
  · have hscan := dragScan_same_uniq id W H d c hmem hcid hu
    have hx := composPointX_nonneg c W d
    have hne : ¬(composPointX c W d = -1 ∨ composPointX c W d = -1) := by
      rintro (h1 | h1) <;> omega
    simp only [omniparser_drags, hd, hscan]
    rw [if_neg hne]
    simp

/-- Witness for `action_point_trunc_mapping` at the spec scenario. -/
theorem action_point_trunc_mapping_witness :
    stScen.detail = some dScen ∧
    findCompos 0 dScen.compos = some cScen ∧
    (∀ x ∈ dScen.compos, x.id = 0 → x = cScen) ∧
    (composPointX cScen 1920 dScen =
       specTruncCoord cScen.position.column_min cScen.position.column_max 1920
         dScen.img_shape_cols ∧
     composPointY cScen 1080 dScen =
       specTruncCoord cScen.position.row_min cScen.position.row_max 1080
         dScen.img_shape_rows ∧
     omniparser_click 0 "left" 1 1920 1080 4 stScen =
       .ok (true,
         { stScen with current_mouse_x := composPointX cScen 1920 dScen,
                       current_mouse_y := composPointY cScen 1080 dScen,
                       current_window := 4 },
         [Effect.click (composPointX cScen 1920 dScen)
            (composPointY cScen 1080 dScen) "left" 1]) ∧
     omniparser_mouse_move 0 1920 1080 4 stScen =
       .ok (true,
         { stScen with current_mouse_x := composPointX cScen 1920 dScen,
                       current_mouse_y := composPointY cScen 1080 dScen,
                       current_window := 4 },
         [Effect.moveTo (composPointX cScen 1920 dScen)
            (composPointY cScen 1080 dScen)]) ∧
     omniparser_drags 0 0 "left" "" 1920 1080 4 stScen =
       .ok (true,
         { stScen with current_mouse_x := composPointX cScen 1920 dScen,
                       current_mouse_y := composPointY cScen 1080 dScen,
                       current_window := 4 },
         [Effect.moveTo (composPointX cScen 1920 dScen)
            (composPointY cScen 1080 dScen),
          Effect.dragTo (composPointX cScen 1920 dScen)
            (composPointY cScen 1080 dScen) "left"])) :=
  ⟨rfl, rfl, by decide,
   action_point_trunc_mapping stScen dScen cScen 0 rfl rfl (by decide)
     "left" 1 1920 1080 4⟩

/-- Claim C2 counterexample: before any analysis has been published
(`detail = None`), click, move and drag do not return `false` — subscripting
`None` raises `TypeError`. -/
theorem no_analysis_lookup_raises :
    stIdle.detail = none ∧
    omniparser_click 0 "left" 1 1920 1080 0 stIdle = .error .typeError ∧
    omniparser_mouse_move 0 1920 1080 0 stIdle = .error .typeError ∧
    omniparser_drags 0 1 "left" "" 1920 1080 0 stIdle = .error .typeError :=
  ⟨rfl, rfl, rfl, rfl⟩

/-- Claim C2 (amended): once a result is published, an id absent from it makes
click, move and drag return `false` with no pointer, window or context
mutation (state returned unchanged, no collaborator call emitted). -/
theorem absent_id_false_no_mutation (s : St) (d : Detail)
    (id from_id to_id : ℤ) (b key : String) (n : ℤ) (W H w : ℕ)
    (hd : s.detail = some d)
    (hid : findCompos id d.compos = none)
    (hft : findCompos from_id d.compos = none ∨
           findCompos to_id d.compos = none) :
    omniparser_click id b n W H w s = .ok (false, s, []) ∧
    omniparser_mouse_move id W H w s = .ok (false, s, []) ∧
    omniparser_drags from_id to_id b key W H w s = .ok (false, s, []) := by
  refine ⟨by simp [omniparser_click, hd, hid],
    by simp [omniparser_mouse_move, hd, hid], ?_⟩
  rcases hft with hf | ht
  · have h1 : (dragScan from_id to_id W H d).1 = ((-1 : ℤ), (0 : ℤ)) := by
      unfold dragScan
      exact dragScan_fst_of_no_match from_id to_id W H d d.compos _
        (findCompos_eq_none from_id d.compos hf)
    simp [omniparser_drags, hd, h1]
  · have h2 : (dragScan from_id to_id W H d).2 = ((-1 : ℤ), (0 : ℤ)) := by
      unfold dragScan
      exact dragScan_snd_of_no_match from_id to_id W H d d.compos _
        (findCompos_eq_none to_id d.compos ht)
    simp [omniparser_drags, hd, h2]

/-- Witness for `absent_id_false_no_mutation`: id 5 is absent from the
scenario result. -/
theorem absent_id_false_no_mutation_witness :
    stScen.detail = some dScen ∧
    findCompos 5 dScen.compos = none ∧
    (findCompos 5 dScen.compos = none ∨ findCompos 0 dScen.compos = none) ∧
    (omniparser_click 5 "left" 1 1920 1080 4 stScen = .ok (false, stScen, []) ∧
     omniparser_mouse_move 5 1920 1080 4 stScen = .ok (false, stScen, []) ∧
     omniparser_drags 5 0 "left" "" 1920 1080 4 stScen =
       .ok (false, stScen, [])) :=
  ⟨rfl, rfl, Or.inl rfl,
   absent_id_false_no_mutation stScen dScen 5 5 0 "left" "" 1 1920 1080 4
     rfl rfl (Or.inl rfl)⟩

/-- Claim C6: the ids printed by the summary are exactly the detection-order
positions `0..n-1`, line `j` shows element `j`, and (with ids being
detection-order positions, as the analysis contract fixes) looking id `j` up
via click or move resolves the very same element `j` to its mapped point; the
action leaves the registry untouched, so every repeated call until the next
analyze yields the same point. -/
theorem summary_id_click_round_trip (s : St) (d : Detail) (j : ℕ)
    (hd : s.detail = some d) (hids : DetectionOrderIds d)
    (hj : j < d.compos.length) (b : String) (n : ℤ) (W H w : ℕ) :
    summaryIds d = List.range d.compos.length ∧
    (detailSummaryLines d)[j]? = some (composLine j (d.compos.get ⟨j, hj⟩)) ∧
    findCompos (j : ℤ) d.compos = some (d.compos.get ⟨j, hj⟩) ∧
    omniparser_click (j : ℤ) b n W H w s =
      .ok (true,
        { s with current_mouse_x := composPointX (d.compos.get ⟨j, hj⟩) W d,
                 current_mouse_y := composPointY (d.compos.get ⟨j, hj⟩) H d,
                 current_window := w },
        [Effect.click (composPointX (d.compos.get ⟨j, hj⟩) W d)
           (composPointY (d.compos.get ⟨j, hj⟩) H d) b n]) ∧
    omniparser_mouse_move (j : ℤ) W H w s =
      .ok (true,
        { s with current_mouse_x := composPointX (d.compos.get ⟨j, hj⟩) W d,
                 current_mouse_y := composPointY (d.compos.get ⟨j, hj⟩) H d,
                 current_window := w },
        [Effect.moveTo (composPointX (d.compos.get ⟨j, hj⟩) W d)
           (composPointY (d.compos.get ⟨j, hj⟩) H d)]) ∧
    ({ s with current_mouse_x := composPointX (d.compos.get ⟨j, hj⟩) W d,
              current_mouse_y := composPointY (d.compos.get ⟨j, hj⟩) H d,
              current_window := w } : St).detail = some d := by
  have hfind : findCompos (j : ℤ) d.compos = some (d.compos.get ⟨j, hj⟩) := by
    have hb : ∀ k : ℕ, ∀ hk : k < d.compos.length,
        (d.compos.get ⟨k, hk⟩).id = 0 + k := by
      intro k hk
      rw [hids k hk]
      ring
    have := findCompos_of_base d.compos 0 hb j hj
    rwa [zero_add] at this
  refine ⟨?_, ?_, hfind, ?_, ?_, hd⟩
  · simp [summaryIds, List.enum_map_fst]
  · simp [detailSummaryLines, List.getElem?_map, List.getElem?_enum,
      List.getElem?_eq_getElem hj]
  · simp [omniparser_click, hd, hfind]
  · simp [omniparser_mouse_move, hd, hfind]

/-- Witness for `summary_id_click_round_trip` at the two-element result,
element 1. -/
theorem summary_round_trip_witness :
    stTwo.detail = some dTwo ∧
    DetectionOrderIds dTwo ∧
    1 < dTwo.compos.length ∧
    (summaryIds dTwo = List.range dTwo.compos.length ∧
     (detailSummaryLines dTwo)[1]? =
       some (composLine 1 (dTwo.compos.get ⟨1, by decide⟩)) ∧
     findCompos 1 dTwo.compos = some (dTwo.compos.get ⟨1, by decide⟩) ∧
     omniparser_click 1 "left" 1 1920 1080 4 stTwo =
       .ok (true,
         { stTwo with
             current_mouse_x := composPointX (dTwo.compos.get ⟨1, by decide⟩) 1920 dTwo,
             current_mouse_y := composPointY (dTwo.compos.get ⟨1, by decide⟩) 1080 dTwo,
             current_window := 4 },
         [Effect.click (composPointX (dTwo.compos.get ⟨1, by decide⟩) 1920 dTwo)
            (composPointY (dTwo.compos.get ⟨1, by decide⟩) 1080 dTwo) "left" 1]) ∧
     omniparser_mouse_move 1 1920 1080 4 stTwo =
       .ok (true,
         { stTwo with
             current_mouse_x := composPointX (dTwo.compos.get ⟨1, by decide⟩) 1920 dTwo,
             current_mouse_y := composPointY (dTwo.compos.get ⟨1, by decide⟩) 1080 dTwo,
             current_window := 4 },
         [Effect.moveTo (composPointX (dTwo.compos.get ⟨1, by decide⟩) 1920 dTwo)
            (composPointY (dTwo.compos.get ⟨1, by decide⟩) 1080 dTwo)]) ∧
     ({ stTwo with
          current_mouse_x := composPointX (dTwo.compos.get ⟨1, by decide⟩) 1920 dTwo,
          current_mouse_y := composPointY (dTwo.compos.get ⟨1, by decide⟩) 1080 dTwo,
          current_window := 4 } : St).detail = some dTwo) :=
  ⟨rfl, dTwo_ids, by decide,
   summary_id_click_round_trip stTwo dTwo 1 rfl dTwo_ids (by decide)
     "left" 1 1920 1080 4⟩

/-- Claim C3 (code bug, actual behavior): `omniparser_thread_func` has no
exception handler, so wherever the background unit of work raises — before
line 72 has assigned anything, or between the later assignments —
`is_finished` stays `False` forever while `omniparser_thread` stays set: the
`while not is_finished: await asyncio.sleep(0.1)` loop polls indefinitely and
a re-issued analyze request joins the dead pass instead of clearing the phase
or surfacing an `AnalysisFailed` condition. This contradicts the claim (and
the tool's own docstring, which promises that re-running recovers). -/
theorem analysis_failure_wedges (s : St) (r : ThreadRun)
    (h : s.omniparser_thread = none) (hr : r.isFailure = true) :
    (omniparser_thread_func r (startAnalysis s).1 "").1.is_finished = false ∧
    (omniparser_thread_func r (startAnalysis s).1 "").1.omniparser_thread = some () ∧
    startAnalysis (omniparser_thread_func r (startAnalysis s).1 "").1 =
      ((omniparser_thread_func r (startAnalysis s).1 "").1, false) := by
  cases r with
  | success d img => simp [ThreadRun.isFailure] at hr
  | failBeforeDetail =>
    simp [startAnalysis, omniparser_thread_func, h]
  | failAfterDetail d =>
    simp [startAnalysis, omniparser_thread_func, threadAssignDetail, h]
  | failAfterImage d img =>
    simp [startAnalysis, omniparser_thread_func, threadAssignDetail,
      threadAssignImage, h]

/-- Witness for `analysis_failure_wedges` at the startup state, with the
pass dying before the line-72 assignment (a `parse_raw` raise). -/
theorem analysis_failure_wedges_witness :
    stIdle.omniparser_thread = none ∧
    ThreadRun.isFailure .failBeforeDetail = true ∧
    ((omniparser_thread_func .failBeforeDetail (startAnalysis stIdle).1 "").1.is_finished = false ∧
     (omniparser_thread_func .failBeforeDetail (startAnalysis stIdle).1 "").1.omniparser_thread = some () ∧
     startAnalysis (omniparser_thread_func .failBeforeDetail (startAnalysis stIdle).1 "").1 =
       ((omniparser_thread_func .failBeforeDetail (startAnalysis stIdle).1 "").1, false)) :=
  ⟨rfl, rfl, analysis_failure_wedges stIdle .failBeforeDetail rfl rfl⟩

/-- Claim C4: an analyze request observed while a background pass is running
(`omniparser_thread` set) does not start a second pass: the start section is a
no-op (state unchanged, no pass started) and the caller proceeds to waiting on
the shared `is_finished` flag of the existing pass. -/
theorem running_pass_not_duplicated (s : St)
    (h : s.omniparser_thread = some ()) :
    startAnalysis s = (s, false) := by
  simp [startAnalysis, h]

/-- Witness for `running_pass_not_duplicated` at a running-pass state. -/
theorem running_pass_not_duplicated_witness :
    stRun.omniparser_thread = some () ∧ startAnalysis stRun = (stRun, false) :=
  ⟨rfl, running_pass_not_duplicated stRun rfl⟩

/-- Claim C5 counterexample: with the scenario result published and no pass
running, starting a new analysis erases the previously published result — the
registry does not keep the last-good result servable while the new pass is in
progress; a click issued then raises instead of serving it. -/
theorem new_pass_discards_last_result :
    stScen.detail = some dScen ∧
    stScen.omniparser_thread = none ∧
    (startAnalysis stScen).2 = true ∧
    (startAnalysis stScen).1.omniparser_thread = some () ∧
    (startAnalysis stScen).1.detail = none ∧
    (startAnalysis stScen).1.result_image = none ∧
    omniparser_click 0 "left" 1 1920 1080 0 (startAnalysis stScen).1 =
      .error .typeError :=
  ⟨rfl, rfl, rfl, rfl, rfl, rfl, rfl⟩

/-- Claim C5 (amended): the registry neither retains the last result nor is
all-or-nothing. The pass-start section clears every result field, discarding
the previously published result; the thread then publishes piecewise —
`detail` at line 72, the preview at lines 83-84, `is_finished` at line 90 —
so after a failure between those assignments (and equally in the mid-pass
window of every successful pass, whose state this is) the registry holds
`detail` without a preview or completion flag, and a click serves that
partially constructed result. Only the completed body ends with all fields
set. -/
theorem registry_piecewise_publication (s : St) (d : Detail) (c : Compos)
    (img : ℕ) (id : ℤ) (h : s.omniparser_thread = none)
    (hc : findCompos id d.compos = some c)
    (b : String) (n : ℤ) (W H w : ℕ) :
    (startAnalysis s).1.detail = none ∧
    (startAnalysis s).1.result_image = none ∧
    (startAnalysis s).1.is_finished = false ∧
    (omniparser_thread_func (.failAfterDetail d) (startAnalysis s).1 "").1.detail = some d ∧
    (omniparser_thread_func (.failAfterDetail d) (startAnalysis s).1 "").1.result_image = none ∧
    (omniparser_thread_func (.failAfterDetail d) (startAnalysis s).1 "").1.is_finished = false ∧
    omniparser_click id b n W H w
        (omniparser_thread_func (.failAfterDetail d) (startAnalysis s).1 "").1 =
      .ok (true,
        { (omniparser_thread_func (.failAfterDetail d) (startAnalysis s).1 "").1 with
            current_mouse_x := composPointX c W d,
            current_mouse_y := composPointY c H d,
            current_window := w },
        [Effect.click (composPointX c W d) (composPointY c H d) b n]) ∧
    (omniparser_thread_func (.failAfterImage d img) (startAnalysis s).1 "").1.result_image = some img ∧
    (omniparser_thread_func (.failAfterImage d img) (startAnalysis s).1 "").1.is_finished = false ∧
    (omniparser_thread_func (.success d img) (startAnalysis s).1 "").1.detail = some d ∧
    (omniparser_thread_func (.success d img) (startAnalysis s).1 "").1.result_image = some img ∧
    (omniparser_thread_func (.success d img) (startAnalysis s).1 "").1.is_finished = true := by
  simp [startAnalysis, omniparser_thread_func, threadAssignDetail,
    threadAssignImage, threadFinish, omniparser_click, h, hc]

/-- Witness for `registry_piecewise_publication` at the scenario state, with
the one-element result `dOne` being published. -/
theorem registry_piecewise_publication_witness :
    stScen.omniparser_thread = none ∧
    findCompos 0 dOne.compos = some cOne ∧
    ((startAnalysis stScen).1.detail = none ∧
     (startAnalysis stScen).1.result_image = none ∧
     (startAnalysis stScen).1.is_finished = false ∧
     (omniparser_thread_func (.failAfterDetail dOne) (startAnalysis stScen).1 "").1.detail = some dOne ∧
     (omniparser_thread_func (.failAfterDetail dOne) (startAnalysis stScen).1 "").1.result_image = none ∧
     (omniparser_thread_func (.failAfterDetail dOne) (startAnalysis stScen).1 "").1.is_finished = false ∧
     omniparser_click 0 "left" 1 1920 1080 4
         (omniparser_thread_func (.failAfterDetail dOne) (startAnalysis stScen).1 "").1 =
       .ok (true,
         { (omniparser_thread_func (.failAfterDetail dOne) (startAnalysis stScen).1 "").1 with
             current_mouse_x := composPointX cOne 1920 dOne,
             current_mouse_y := composPointY cOne 1080 dOne,
             current_window := 4 },
         [Effect.click (composPointX cOne 1920 dOne)
            (composPointY cOne 1080 dOne) "left" 1]) ∧
     (omniparser_thread_func (.failAfterImage dOne 7) (startAnalysis stScen).1 "").1.result_image = some 7 ∧
     (omniparser_thread_func (.failAfterImage dOne 7) (startAnalysis stScen).1 "").1.is_finished = false ∧
     (omniparser_thread_func (.success dOne 7) (startAnalysis stScen).1 "").1.detail = some dOne ∧
     (omniparser_thread_func (.success dOne 7) (startAnalysis stScen).1 "").1.result_image = some 7 ∧
     (omniparser_thread_func (.success dOne 7) (startAnalysis stScen).1 "").1.is_finished = true) :=
  ⟨rfl, rfl,
   registry_piecewise_publication stScen dOne cOne 7 0 rfl rfl
     "left" 1 1920 1080 4⟩

/-- Claim C7 (code bug, actual behavior): `detail_text` is local to each
`omniparser_details_on_screen` invocation and the background thread's
`nonlocal detail_text` binds only to the invocation that created the thread,
so of two concurrent awaiters of one pass the joiner returns an empty summary
while the starter gets the real one — the callers do not receive identical
pairs (they do share the preview image). -/
theorem joining_caller_empty_summary :
    twoCallerRun (.success dOne 7) stIdle =
      ((detailSummary dOne, some 7), ("", some 7)) ∧
    detailSummary dOne = "ID: 0, text: hello\n" ∧
    ("" : String) ≠ "ID: 0, text: hello\n" :=
  ⟨rfl, rfl, by decide⟩

/-- Claim C8 (code bug, actual behavior): on the reachable path (`id = -1`)
delivery is selected by `content.isascii()` exactly as claimed — ASCII content
is typed by direct key simulation and non-ASCII content goes through the
clipboard-paste fallback — but a call with `id ≥ 0` raises `NameError` (the
undefined `autogui_click`) before either delivery path, so the claim's "for
every call" fails on the code. -/
theorem write_delivery_selection :
    pyIsAscii "hello" = true ∧
    omniparser_write "hello" (-1) stIdle =
      .ok (stIdle, [Effect.activateWindow 0, Effect.moveTo 5 6,
                    Effect.write "hello"]) ∧
    pyIsAscii "こんにちは" = false ∧
    omniparser_write "こんにちは" (-1) stIdle =
      .ok (stIdle, [Effect.activateWindow 0, Effect.moveTo 5 6,
                    Effect.clipboardCopy "こんにちは",
                    Effect.hotkey ["ctrl", "v"]]) ∧
    omniparser_write "hello" 0 stIdle = .error .nameError :=
  ⟨rfl, rfl, rfl, rfl, rfl⟩

/-- Claim C9 (code bug, actual behavior): `omniparser_write` with `id ≥ 0`
calls `autogui_click(id)`, a name defined nowhere in the repository, so it
raises `NameError` instead of clicking the element first; with the default
`id = -1` it indeed performs no id lookup — even with no analysis published —
and types at the stored cursor position after reactivating the stored
window. -/
theorem write_id_undefined_click_name :
    stIdle.detail = none ∧
    omniparser_write "hi" 3 stIdle = .error .nameError ∧
    omniparser_write "hi" (-1) stIdle =
      .ok (stIdle, [Effect.activateWindow 0, Effect.moveTo 5 6,
                    Effect.write "hi"]) :=
  ⟨rfl, rfl, rfl⟩

/-- Claim C10: with `key2 = ""` the press-keys operation falls through to the
one-key branch no matter what `key3` is: only `key1` is pressed and released
(`hotkey` presses in order and releases in reverse), the call behaves exactly
as if `key3` were empty, and a third key takes effect only when `key2` is also
nonempty. -/
theorem third_key_ignored_without_second (k1 k3 : String) (s : St)
    (h : k3 ≠ "") :
    omniparser_input_key k1 "" k3 s =
      (s, [Effect.activateWindow s.current_window,
           Effect.moveTo s.current_mouse_x s.current_mouse_y,
           Effect.hotkey [k1]]) ∧
    omniparser_input_key k1 "" k3 s = omniparser_input_key k1 "" "" s ∧
    hotkeyEvents [k1] = [KeyEvent.down k1, KeyEvent.up k1] ∧
    (∀ k2 : String, k2 ≠ "" →
      omniparser_input_key k1 k2 k3 s =
        (s, [Effect.activateWindow s.current_window,
             Effect.moveTo s.current_mouse_x s.current_mouse_y,
             Effect.hotkey [k1, k2, k3]])) := by
  refine ⟨?_, ?_, rfl, ?_⟩
  · simp [omniparser_input_key]
  · simp [omniparser_input_key]
  · intro k2 hk2
    simp [omniparser_input_key, hk2, h]

/-- Witness for `third_key_ignored_without_second` at concrete keys. -/
theorem third_key_ignored_witness :
    ("c" : String) ≠ "" ∧
    omniparser_input_key "a" "" "c" stIdle =
      (stIdle, [Effect.activateWindow 0, Effect.moveTo 5 6,
                Effect.hotkey ["a"]]) :=
  ⟨by decide, (third_key_ignored_without_second "a" "c" stIdle (by decide)).1⟩

end McpAutogui
